import Mathlib

/-!
Shallow embedding of the structured-logging pipeline of `src/src/logging.h`
(namespace `util::log`): severity levels, log entries, policies, the text
formatter, channels with their dispatch loop, the entry builder, and the
convenience entry points `ConsoleLog` / `FileLog`.

Modelling conventions:
* `std::source_location` is a record of file name, line and function name.
* `std::chrono::system_clock::time_point` is an abstract tick count (`Nat`);
  the zoned-time rendering done by `std::format` is abstracted into an
  arbitrary rendering function `Nat → String` passed to the formatter.
* A `Driver_` is identified by a natural number (its object identity);
  `Submit` side effects are modelled as the list of `drv->Submit(entry)`
  calls the channel performs, in order.  A policy object is modelled by the
  predicate its virtual `TransformEntry` computes (it receives the entry by
  const reference, so it cannot mutate it).
* `ChannelBase_::Submit` is instrumented: it returns the list of outcomes of
  the `TransformEntry` calls it actually makes, the list of driver dispatch
  calls, and the state of the entry reference when `Submit` returns.
-/

namespace UtilLog

/-- `enum class LOG_LEVEL { NONE, FATAL, ERROR, WARN, INFO, DEBUG, TRACE }`
from `logging.h`; constructors listed in source order, so the underlying
values are `NONE = 0, …, TRACE = 6`. -/
inductive LOG_LEVEL where
  | NONE
  | FATAL
  | ERROR
  | WARN
  | INFO
  | DEBUG
  | TRACE
deriving DecidableEq, Repr

/-- The underlying integral value of the `enum class` constant (C++ assigns
`0, 1, 2, …` in declaration order). -/
def LOG_LEVEL.toNat : LOG_LEVEL → Nat
  | .NONE => 0
  | .FATAL => 1
  | .ERROR => 2
  | .WARN => 3
  | .INFO => 4
  | .DEBUG => 5
  | .TRACE => 6

/-- The C++ comparison `a >= b` on `LOG_LEVEL` values compares the underlying
integral values. -/
def LOG_LEVEL.ge (a b : LOG_LEVEL) : Bool :=
  b.toNat ≤ a.toNat

/-- `GetLOG_LEVELName_` from `logging.h`: the display name of each level;
the `default` branch of the `switch` renders `NONE`. -/
def GetLOG_LEVELName_ (lvl : LOG_LEVEL) : String :=
  match lvl with
  | .TRACE => "TRACE"
  | .DEBUG => "DEBUG"
  | .INFO => "INFO"
  | .WARN => "WARN"
  | .ERROR => "ERROR"
  | .FATAL => "FATAL"
  | .NONE => "NONE"

/-- `std::source_location`: file name, line, function name. -/
structure SourceLocation where
  file_name : String
  line : Nat
  function_name : String
deriving DecidableEq, Repr

/-- `struct Entry_` from `logging.h`.  The in-class member initializer gives
`m_level = LOG_LEVEL::INFO`; `m_text` default-constructs to the empty
string. -/
structure Entry_ where
  m_level : LOG_LEVEL := .INFO
  m_text : String := ""
  m_source : SourceLocation
  m_timestamp : Nat
deriving DecidableEq, Repr

/-- The two-argument constructor `Entry_(src, ts)`: sets source and
timestamp; `m_level` and `m_text` keep their member-initializer defaults. -/
def Entry_.mkST (src : SourceLocation) (ts : Nat) : Entry_ :=
  { m_source := src, m_timestamp := ts }

/-- `struct SeverityPolicy` : its only state is the threshold `m_level`
stored by the constructor. -/
structure SeverityPolicy where
  m_level : LOG_LEVEL

/-- `SeverityPolicy::TransformEntry`: `return entry.m_level >= m_level;`. -/
def SeverityPolicy.TransformEntry (p : SeverityPolicy) (entry : Entry_) : Bool :=
  LOG_LEVEL.ge entry.m_level p.m_level

/-- An abstract `Policy_` object, modelled by the predicate its virtual
`TransformEntry(const Entry_&)` computes. -/
def Policy_ : Type := Entry_ → Bool

/-- A `Driver_` object identity (channels store `shared_ptr<Driver_>`;
registering the same pointer twice stores the same identity twice). -/
abbrev DriverId : Type := Nat

/-- `FormatterText::Format` from `logging.h`:
`std::format("[{}] ({}) : \"{}\" in function: {}\n   {}({})\n", …)` applied
to the level name, the zoned timestamp, the text, the function name, the
file name and the line.  `tsRender` abstracts the zoned-time rendering of
the timestamp. -/
def FormatterText.Format (tsRender : Nat → String) (entry : Entry_) : String :=
  "[" ++ GetLOG_LEVELName_ entry.m_level ++ "] (" ++ tsRender entry.m_timestamp
    ++ ") : \"" ++ entry.m_text ++ "\" in function: "
    ++ entry.m_source.function_name ++ "\n   " ++ entry.m_source.file_name
    ++ "(" ++ toString entry.m_source.line ++ ")\n"

/-- `class ChannelBase_`: an ordered list of drivers and an ordered list of
policies. -/
structure ChannelBase_ where
  m_drivers : List DriverId := []
  m_policies : List Policy_ := []

/-- The observable behaviour of one `ChannelBase_::Submit(entry)` call. -/
structure SubmitResult where
  /-- Outcomes of the `plc->TransformEntry(entry)` calls actually made,
  in policy-registration order. -/
  policyResults : List Bool
  /-- The `drv->Submit(entry)` calls made, in driver-registration order. -/
  dispatches : List (DriverId × Entry_)
  /-- State of the entry when `Submit` returns (policies and drivers receive
  it by const reference, so the loop threads it through unchanged). -/
  finalEntry : Entry_

/-- The body of `ChannelBase_::Submit`: iterate the policies in order and
return as soon as one `TransformEntry` call yields `false` (no driver is
invoked); once the policy loop completes, call `drv->Submit(entry)` on every
driver in order. -/
def SubmitLoop (plcs : List Policy_) (drvs : List DriverId) (entry : Entry_) :
    SubmitResult :=
  match plcs with
  | [] => ⟨[], drvs.map (fun d => (d, entry)), entry⟩
  | p :: ps =>
    if p entry then
      let r := SubmitLoop ps drvs entry
      ⟨true :: r.policyResults, r.dispatches, r.finalEntry⟩
    else
      ⟨[false], [], entry⟩

/-- `ChannelBase_::Submit(Entry_& entry)`. -/
def ChannelBase_.Submit (ch : ChannelBase_) (entry : Entry_) : SubmitResult :=
  SubmitLoop ch.m_policies ch.m_drivers entry

/-- `ChannelBase_::RegisterDrivers`: appends at `m_drivers.end()`. -/
def ChannelBase_.RegisterDrivers (ch : ChannelBase_) (drvs : List DriverId) :
    ChannelBase_ :=
  { ch with m_drivers := ch.m_drivers ++ drvs }

/-- `ChannelBase_::RegisterPolicies`: appends at `m_policies.end()`. -/
def ChannelBase_.RegisterPolicies (ch : ChannelBase_) (plcs : List Policy_) :
    ChannelBase_ :=
  { ch with m_policies := ch.m_policies ++ plcs }

/-- The entries a given driver observes from a list of dispatch calls. -/
def driverObservations (d : DriverId) (calls : List (DriverId × Entry_)) :
    List Entry_ :=
  (calls.filter (fun c => c.1 = d)).map Prod.snd

/-- `class EntryBuilder_ : private Entry_`: the inherited entry plus the
`unique_ptr<Channel_> m_dest` destination (empty by default). -/
structure EntryBuilder_ where
  entry : Entry_
  m_dest : Option ChannelBase_ := none

/-- `EntryBuilder_::EntryBuilder_(loc)`: delegates to
`Entry_(loc, system_clock::now())`; `m_dest` default-constructs to null. -/
def EntryBuilder_.mkAt (loc : SourceLocation) (now : Nat) : EntryBuilder_ :=
  { entry := Entry_.mkST loc now }

/-- `EntryBuilder_::Text`: assigns `m_text` and returns the builder. -/
def EntryBuilder_.Text (b : EntryBuilder_) (txt : String) : EntryBuilder_ :=
  { b with entry := { b.entry with m_text := txt } }

/-- `EntryBuilder_::Level`: assigns `m_level` and returns the builder. -/
def EntryBuilder_.Level (b : EntryBuilder_) (lvl : LOG_LEVEL) : EntryBuilder_ :=
  { b with entry := { b.entry with m_level := lvl } }

/-- `EntryBuilder_::Channel`: moves the channel into `m_dest`. -/
def EntryBuilder_.Channel (b : EntryBuilder_) (chn : ChannelBase_) :
    EntryBuilder_ :=
  { b with m_dest := some chn }

/-- `EntryBuilder_::Trace`: `Level(LOG_LEVEL::TRACE).Text(txt)`. -/
def EntryBuilder_.Trace (b : EntryBuilder_) (txt : String) : EntryBuilder_ :=
  (b.Level .TRACE).Text txt

/-- `EntryBuilder_::Debug`: `Level(LOG_LEVEL::DEBUG).Text(txt)`. -/
def EntryBuilder_.Debug (b : EntryBuilder_) (txt : String) : EntryBuilder_ :=
  (b.Level .DEBUG).Text txt

/-- `EntryBuilder_::Info`: `Level(LOG_LEVEL::INFO).Text(txt)`. -/
def EntryBuilder_.Info (b : EntryBuilder_) (txt : String) : EntryBuilder_ :=
  (b.Level .INFO).Text txt

/-- `EntryBuilder_::Warn`: `Level(LOG_LEVEL::WARN).Text(txt)`. -/
def EntryBuilder_.Warn (b : EntryBuilder_) (txt : String) : EntryBuilder_ :=
  (b.Level .WARN).Text txt

/-- `EntryBuilder_::Fatal`: `Level(LOG_LEVEL::FATAL).Text(txt)`. -/
def EntryBuilder_.Fatal (b : EntryBuilder_) (txt : String) : EntryBuilder_ :=
  (b.Level .FATAL).Text txt

/-- `EntryBuilder_::~EntryBuilder_()`: `if(m_dest) m_dest->Submit(*this);`
modelled as the list of `Channel::Submit` calls the destructor performs,
each recorded as the destination channel paired with the submitted entry. -/
def EntryBuilder_.finalizeCalls (b : EntryBuilder_) :
    List (ChannelBase_ × Entry_) :=
  match b.m_dest with
  | some chn => [(chn, b.entry)]
  | none => []

/-- The driver dispatches produced by finalizing the builder (the submit
call, when there is one, run through the destination channel). -/
def EntryBuilder_.finalizeDispatches (b : EntryBuilder_) :
    List (DriverId × Entry_) :=
  match b.m_dest with
  | some chn => (chn.Submit b.entry).dispatches
  | none => []

/-- `util::ConsoleLog(text, lvl)`: builds a `ChannelDefault` with one
`StdConsoleDebugDriver` (identity `0`) and one `SeverityPolicy(lvl)`, then a
builder bound to that channel with `Level(lvl)` and `Text(text)`; the
builder's destruction at the end of the function submits the entry.  The
result is the list of driver dispatches that occur. -/
def ConsoleLog (text : String) (lvl : LOG_LEVEL) (loc : SourceLocation)
    (now : Nat) : List (DriverId × Entry_) :=
  let chn : ChannelBase_ :=
    (ChannelBase_.RegisterPolicies
      (ChannelBase_.RegisterDrivers {} [0])
      [(SeverityPolicy.mk lvl).TransformEntry])
  ((((EntryBuilder_.mkAt loc now).Channel chn).Level lvl).Text
    text).finalizeDispatches

/-- `util::FileLog(text, path, lvl)`: same shape as `ConsoleLog` with a
`FileDriver(path)` (identity `0`; the path only affects where the driver
writes, not the dispatch behaviour modelled here). -/
def FileLog (text : String) (path : String) (lvl : LOG_LEVEL)
    (loc : SourceLocation) (now : Nat) : List (DriverId × Entry_) :=
  let chn : ChannelBase_ :=
    (ChannelBase_.RegisterPolicies
      (ChannelBase_.RegisterDrivers {} [0])
      [(SeverityPolicy.mk lvl).TransformEntry])
  let _ := path
  ((((EntryBuilder_.mkAt loc now).Channel chn).Level lvl).Text
    text).finalizeDispatches

/-- Submitting a sequence of entries to the same channel, one `Submit` call
per entry: the concatenation of the driver dispatches, in order. -/
def ChannelBase_.SubmitSeq (ch : ChannelBase_) (es : List Entry_) :
    List (DriverId × Entry_) :=
  es.flatMap (fun e => (ch.Submit e).dispatches)

/-- A concrete call site used by closed test scenarios. -/
def testLoc : SourceLocation :=
  { file_name := "main.cpp", line := 42, function_name := "int main()" }

/-- An entry at a given level with fixed text, source and timestamp, used by
closed test scenarios. -/
def testEntry (lvl : LOG_LEVEL) : Entry_ :=
  { m_level := lvl, m_text := "msg", m_source := testLoc, m_timestamp := 7 }

end UtilLog

namespace UtilLog

theorem SubmitLoop_reject (pre : List Policy_) (p : Policy_)
    (post : List Policy_) (drvs : List DriverId) (e : Entry_)
    (hpre : ∀ q ∈ pre, q e = true) (hp : p e = false) :
    SubmitLoop (pre ++ p :: post) drvs e
      = ⟨List.replicate pre.length true ++ [false], [], e⟩ := by
  induction pre with
  | nil => simp [SubmitLoop, hp]
  | cons q qs ih =>
    have hq : q e = true := hpre q (by simp)
    have ih := ih (fun r hr => hpre r (by simp [hr]))
    simp [SubmitLoop, hq, ih, List.replicate_succ]

theorem SubmitLoop_frame (plcs : List Policy_) (drvs : List DriverId)
    (e : Entry_) :
    (SubmitLoop plcs drvs e).finalEntry = e ∧
      ∀ c ∈ (SubmitLoop plcs drvs e).dispatches, c.2 = e := by
  induction plcs with
  | nil =>
    refine ⟨rfl, ?_⟩
    intro c hc
    simp only [SubmitLoop, List.mem_map] at hc
    obtain ⟨d, _, rfl⟩ := hc
    rfl
  | cons p ps ih =>
    by_cases hp : p e
    · simpa [SubmitLoop, hp] using ih
    · simp [SubmitLoop, hp]

theorem driverObservations_map_self (d : DriverId) (e : Entry_)
    (drvs : List DriverId) :
    driverObservations d (drvs.map fun x => (x, e))
      = List.replicate (drvs.count d) e := by
  induction drvs with
  | nil => rfl
  | cons x xs ih =>
    by_cases hx : x = d
    · simp [driverObservations, List.count_cons, hx, List.replicate_succ,
        ← ih, List.filter]
    · simp only [driverObservations, List.map_cons, List.filter_cons] at ih ⊢
      simp [hx, List.count_cons, ih]

/-- C1: for every Entry `e` and threshold `T`,
`SeverityPolicy(T).TransformEntry(e)` holds iff `e.m_level >= T` under the
underlying enum values, and those values realise the ordering
`NONE < FATAL < ERROR < WARN < INFO < DEBUG < TRACE` (`NONE` lowest, `TRACE`
highest). -/
theorem severityPolicy_transformEntry_iff_ge (T : LOG_LEVEL) (e : Entry_) :
    ((SeverityPolicy.mk T).TransformEntry e = true ↔
      T.toNat ≤ e.m_level.toNat) ∧
    LOG_LEVEL.NONE.toNat < LOG_LEVEL.FATAL.toNat ∧
    LOG_LEVEL.FATAL.toNat < LOG_LEVEL.ERROR.toNat ∧
    LOG_LEVEL.ERROR.toNat < LOG_LEVEL.WARN.toNat ∧
    LOG_LEVEL.WARN.toNat < LOG_LEVEL.INFO.toNat ∧
    LOG_LEVEL.INFO.toNat < LOG_LEVEL.DEBUG.toNat ∧
    LOG_LEVEL.DEBUG.toNat < LOG_LEVEL.TRACE.toNat := by
  refine ⟨?_, by decide, by decide, by decide, by decide, by decide, by decide⟩
  simp [SeverityPolicy.TransformEntry, LOG_LEVEL.ge]

/-- C2 counterexample: a channel whose only policy is `SeverityPolicy(WARN)`
and whose only driver is the recording driver `0`, given entries at levels
`INFO`, `WARN`, `ERROR` in that order, does NOT record `[WARN, ERROR]`:
under the inverted ordering (`WARN = 3, INFO = 4, ERROR = 2`) the `INFO`
entry passes and the `ERROR` entry is rejected. -/
theorem warnChannel_not_warn_error :
    ¬ (driverObservations 0
        (ChannelBase_.SubmitSeq
          ⟨[0], [(SeverityPolicy.mk .WARN).TransformEntry]⟩
          [testEntry .INFO, testEntry .WARN, testEntry .ERROR])).map
        Entry_.m_level
      = [LOG_LEVEL.WARN, LOG_LEVEL.ERROR] := by
  decide

/-- C2 amended: with `SeverityPolicy(WARN)` as the only policy and one
recording driver, submitting entries at levels `INFO`, `WARN`, `ERROR` in
that order makes the driver observe exactly the sequence `[INFO, WARN]`
(the `INFO` and `WARN` entries, in order; the `ERROR` entry is filtered
out, since `ERROR < WARN` under the inverted ordering). -/
theorem warnChannel_records_info_warn (d : DriverId) (e1 e2 e3 : Entry_)
    (h1 : e1.m_level = .INFO) (h2 : e2.m_level = .WARN)
    (h3 : e3.m_level = .ERROR) :
    driverObservations d
        (ChannelBase_.SubmitSeq
          ⟨[d], [(SeverityPolicy.mk .WARN).TransformEntry]⟩ [e1, e2, e3])
      = [e1, e2] := by
  simp [ChannelBase_.SubmitSeq, ChannelBase_.Submit, SubmitLoop,
    SeverityPolicy.TransformEntry, LOG_LEVEL.ge, h1, h2, h3,
    LOG_LEVEL.toNat, driverObservations, List.filter]

/-- Witness for the C2 amended theorem at a concrete driver and concrete
entries. -/
theorem warnChannel_records_info_warn_witness :
    driverObservations 0
        (ChannelBase_.SubmitSeq
          ⟨[0], [(SeverityPolicy.mk .WARN).TransformEntry]⟩
          [testEntry .INFO, testEntry .WARN, testEntry .ERROR])
      = [testEntry .INFO, testEntry .WARN] :=
  warnChannel_records_info_warn 0 (testEntry .INFO) (testEntry .WARN)
    (testEntry .ERROR) rfl rfl rfl

/-- C3: if the registered policies split as `pre ++ p :: post` where every
policy in `pre` accepts `e` and `p` rejects it, then `Submit` makes exactly
the `TransformEntry` calls for `pre` and `p` (so the policies in `post` are
never evaluated) and performs no driver dispatch. -/
theorem submit_first_reject_short_circuits (ch : ChannelBase_) (e : Entry_)
    (pre : List Policy_) (p : Policy_) (post : List Policy_)
    (hps : ch.m_policies = pre ++ p :: post)
    (hpre : ∀ q ∈ pre, q e = true) (hp : p e = false) :
    (ch.Submit e).dispatches = [] ∧
    (ch.Submit e).policyResults
      = List.replicate pre.length true ++ [false] := by
  unfold ChannelBase_.Submit
  rw [hps, SubmitLoop_reject pre p post ch.m_drivers e hpre hp]
  exact ⟨rfl, rfl⟩

/-- Witness for C3: a channel with one driver whose first policy rejects
everything and whose second accepts everything; submitting a concrete entry
evaluates only the first policy and dispatches nothing. -/
theorem submit_first_reject_short_circuits_witness :
    ((⟨[0], [fun _ => false, fun _ => true]⟩ : ChannelBase_).Submit
        (testEntry .INFO)).dispatches = [] ∧
    ((⟨[0], [fun _ => false, fun _ => true]⟩ : ChannelBase_).Submit
        (testEntry .INFO)).policyResults = [false] := by
  simpa using
    submit_first_reject_short_circuits
      ⟨[0], [fun _ => false, fun _ => true]⟩ (testEntry .INFO)
      [] (fun _ => false) [fun _ => true] rfl (by simp) rfl

/-- C4: a channel with zero policies dispatches every submitted entry to
every registered driver exactly once per registration, in
driver-registration order; consequently a driver identity registered `n`
times observes the entry exactly `n` times. -/
theorem submit_no_policies_broadcast (ch : ChannelBase_) (e : Entry_)
    (h : ch.m_policies = []) :
    (ch.Submit e).dispatches = ch.m_drivers.map (fun d => (d, e)) ∧
    ∀ d : DriverId,
      driverObservations d (ch.Submit e).dispatches
        = List.replicate (ch.m_drivers.count d) e := by
  unfold ChannelBase_.Submit
  rw [h]
  refine ⟨rfl, ?_⟩
  intro d
  exact driverObservations_map_self d e ch.m_drivers

/-- Witness for C4: a policy-free channel whose driver `5` is registered
twice (with `7` in between) dispatches a concrete entry to `5, 7, 5` in
registration order, and driver `5` observes it exactly twice. -/
theorem submit_no_policies_broadcast_witness :
    ((⟨[5, 7, 5], []⟩ : ChannelBase_).Submit (testEntry .DEBUG)).dispatches
        = [(5, testEntry .DEBUG), (7, testEntry .DEBUG),
           (5, testEntry .DEBUG)] ∧
    driverObservations 5
        ((⟨[5, 7, 5], []⟩ : ChannelBase_).Submit (testEntry .DEBUG)).dispatches
      = [testEntry .DEBUG, testEntry .DEBUG] := by
  have h := submit_no_policies_broadcast ⟨[5, 7, 5], []⟩ (testEntry .DEBUG) rfl
  exact ⟨h.1, by simpa using h.2 5⟩

/-- C5: finalizing an `EntryBuilder_` with a bound channel performs exactly
one `Channel::Submit` call, carrying the accumulated entry, to that channel;
finalizing with no bound channel performs no `Submit` call and no driver
dispatch. -/
theorem entryBuilder_finalize_submits_once (b : EntryBuilder_) :
    (∀ chn, b.m_dest = some chn →
      b.finalizeCalls = [(chn, b.entry)]) ∧
    (b.m_dest = none →
      b.finalizeCalls = [] ∧ b.finalizeDispatches = []) := by
  constructor
  · intro chn hchn
    simp [EntryBuilder_.finalizeCalls, hchn]
  · intro hnone
    simp [EntryBuilder_.finalizeCalls, EntryBuilder_.finalizeDispatches, hnone]

/-- Witness for C5: a builder bound to an empty channel submits its entry
exactly once; a fresh unbound builder submits nothing. -/
theorem entryBuilder_finalize_submits_once_witness :
    ((EntryBuilder_.mkAt testLoc 7).Channel ⟨[], []⟩).finalizeCalls
        = [(⟨[], []⟩, Entry_.mkST testLoc 7)] ∧
    (EntryBuilder_.mkAt testLoc 7).finalizeCalls = [] :=
  ⟨(entryBuilder_finalize_submits_once
      ((EntryBuilder_.mkAt testLoc 7).Channel ⟨[], []⟩)).1 ⟨[], []⟩ rfl,
   ((entryBuilder_finalize_submits_once (EntryBuilder_.mkAt testLoc 7)).2
      rfl).1⟩

/-- C6: `FormatterText::Format` is deterministic (equal entries format to
equal strings, for any fixed rendering of the timestamp), its output is
exactly the rendered line template
`[LEVEL] (timestamp) : "message" in function: FUNC\n   FILE(LINE)\n`, and
the severity display name, the message text, the function name and the file
name each occur verbatim in the output. -/
theorem formatterText_deterministic_and_complete (tsRender : Nat → String)
    (e1 e2 : Entry_) (h : e1 = e2) :
    FormatterText.Format tsRender e1 = FormatterText.Format tsRender e2 ∧
    FormatterText.Format tsRender e1
      = "[" ++ GetLOG_LEVELName_ e1.m_level ++ "] ("
        ++ tsRender e1.m_timestamp ++ ") : \"" ++ e1.m_text
        ++ "\" in function: " ++ e1.m_source.function_name ++ "\n   "
        ++ e1.m_source.file_name ++ "(" ++ toString e1.m_source.line
        ++ ")\n" ∧
    (∃ l r, (FormatterText.Format tsRender e1).data
      = l ++ (GetLOG_LEVELName_ e1.m_level).data ++ r) ∧
    (∃ l r, (FormatterText.Format tsRender e1).data
      = l ++ e1.m_text.data ++ r) ∧
    (∃ l r, (FormatterText.Format tsRender e1).data
      = l ++ e1.m_source.function_name.data ++ r) ∧
    (∃ l r, (FormatterText.Format tsRender e1).data
      = l ++ e1.m_source.file_name.data ++ r) := by
  subst h
  refine ⟨rfl, rfl, ?_, ?_, ?_, ?_⟩
  · exact ⟨"[".data,
      ("] (" ++ tsRender e1.m_timestamp ++ ") : \"" ++ e1.m_text
        ++ "\" in function: " ++ e1.m_source.function_name ++ "\n   "
        ++ e1.m_source.file_name ++ "(" ++ toString e1.m_source.line
        ++ ")\n").data,
      by simp [FormatterText.Format, String.data_append]⟩
  · exact ⟨("[" ++ GetLOG_LEVELName_ e1.m_level ++ "] ("
        ++ tsRender e1.m_timestamp ++ ") : \"").data,
      ("\" in function: " ++ e1.m_source.function_name ++ "\n   "
        ++ e1.m_source.file_name ++ "(" ++ toString e1.m_source.line
        ++ ")\n").data,
      by simp [FormatterText.Format, String.data_append]⟩
  · exact ⟨("[" ++ GetLOG_LEVELName_ e1.m_level ++ "] ("
        ++ tsRender e1.m_timestamp ++ ") : \"" ++ e1.m_text
        ++ "\" in function: ").data,
      ("\n   " ++ e1.m_source.file_name ++ "("
        ++ toString e1.m_source.line ++ ")\n").data,
      by simp [FormatterText.Format, String.data_append]⟩
  · exact ⟨("[" ++ GetLOG_LEVELName_ e1.m_level ++ "] ("
        ++ tsRender e1.m_timestamp ++ ") : \"" ++ e1.m_text
        ++ "\" in function: " ++ e1.m_source.function_name
        ++ "\n   ").data,
      ("(" ++ toString e1.m_source.line ++ ")\n").data,
      by simp [FormatterText.Format, String.data_append]⟩

/-- Witness for C6 at a concrete timestamp rendering and concrete entry. -/
theorem formatterText_deterministic_and_complete_witness :
    FormatterText.Format toString (testEntry .WARN)
        = FormatterText.Format toString (testEntry .WARN) ∧
    FormatterText.Format toString (testEntry .WARN)
      = "[" ++ GetLOG_LEVELName_ (testEntry .WARN).m_level ++ "] ("
        ++ toString (testEntry .WARN).m_timestamp ++ ") : \""
        ++ (testEntry .WARN).m_text ++ "\" in function: "
        ++ (testEntry .WARN).m_source.function_name ++ "\n   "
        ++ (testEntry .WARN).m_source.file_name ++ "("
        ++ toString (testEntry .WARN).m_source.line ++ ")\n" ∧
    (∃ l r, (FormatterText.Format toString (testEntry .WARN)).data
      = l ++ (GetLOG_LEVELName_ (testEntry .WARN).m_level).data ++ r) ∧
    (∃ l r, (FormatterText.Format toString (testEntry .WARN)).data
      = l ++ (testEntry .WARN).m_text.data ++ r) ∧
    (∃ l r, (FormatterText.Format toString (testEntry .WARN)).data
      = l ++ (testEntry .WARN).m_source.function_name.data ++ r) ∧
    (∃ l r, (FormatterText.Format toString (testEntry .WARN)).data
      = l ++ (testEntry .WARN).m_source.file_name.data ++ r) :=
  formatterText_deterministic_and_complete toString (testEntry .WARN)
    (testEntry .WARN) rfl

/-- C7: each convenience method of `EntryBuilder_` leaves the builder in
exactly the state produced by `Level(x).Text(txt)` at the corresponding
level. -/
theorem convenience_methods_are_level_text (b : EntryBuilder_)
    (txt : String) :
    b.Trace txt = (b.Level .TRACE).Text txt ∧
    b.Debug txt = (b.Level .DEBUG).Text txt ∧
    b.Info txt = (b.Level .INFO).Text txt ∧
    b.Warn txt = (b.Level .WARN).Text txt ∧
    b.Fatal txt = (b.Level .FATAL).Text txt :=
  ⟨rfl, rfl, rfl, rfl, rfl⟩

/-- C8: `ChannelBase_::Submit` leaves the submitted entry unchanged — the
entry state after the call equals the entry passed in, field by field — and
every driver dispatch carries exactly the submitted entry. -/
theorem submit_preserves_entry (ch : ChannelBase_) (e : Entry_) :
    (ch.Submit e).finalEntry = e ∧
    (ch.Submit e).finalEntry.m_level = e.m_level ∧
    (ch.Submit e).finalEntry.m_text = e.m_text ∧
    (ch.Submit e).finalEntry.m_source = e.m_source ∧
    (ch.Submit e).finalEntry.m_timestamp = e.m_timestamp ∧
    ∀ c ∈ (ch.Submit e).dispatches, c.2 = e := by
  obtain ⟨hf, hd⟩ := SubmitLoop_frame ch.m_policies ch.m_drivers e
  exact ⟨hf, by rw [ChannelBase_.Submit, hf], by rw [ChannelBase_.Submit, hf],
    by rw [ChannelBase_.Submit, hf], by rw [ChannelBase_.Submit, hf], hd⟩

/-- C9: `ConsoleLog(text, lvl)` and `FileLog(text, path, lvl)` give the
submitted entry the same level `lvl` they use as the `SeverityPolicy`
threshold, so the filter always passes and the single registered driver
receives the entry exactly once — for every text, path and level. -/
theorem consoleLog_fileLog_never_suppress (text : String) (path : String)
    (lvl : LOG_LEVEL) (loc : SourceLocation) (now : Nat) :
    ConsoleLog text lvl loc now
      = [(0, { m_level := lvl, m_text := text, m_source := loc,
               m_timestamp := now })] ∧
    FileLog text path lvl loc now
      = [(0, { m_level := lvl, m_text := text, m_source := loc,
               m_timestamp := now })] := by
  constructor <;>
    simp [ConsoleLog, FileLog, EntryBuilder_.mkAt, Entry_.mkST,
      EntryBuilder_.Channel, EntryBuilder_.Level, EntryBuilder_.Text,
      EntryBuilder_.finalizeDispatches, ChannelBase_.Submit,
      ChannelBase_.RegisterDrivers, ChannelBase_.RegisterPolicies,
      SubmitLoop, SeverityPolicy.TransformEntry, LOG_LEVEL.ge]

/-- C10: a default-constructed entry (and hence the entry of a fresh
`EntryBuilder_` on which neither `Level` nor a per-level convenience method
was called) has severity `INFO`, not `NONE`; finalizing such a builder with
a bound channel submits exactly that `INFO`-level entry. -/
theorem default_entry_level_is_INFO (loc : SourceLocation) (now : Nat)
    (chn : ChannelBase_) :
    (Entry_.mkST loc now).m_level = .INFO ∧
    (EntryBuilder_.mkAt loc now).entry.m_level = .INFO ∧
    ((EntryBuilder_.mkAt loc now).Channel chn).finalizeCalls
      = [(chn, Entry_.mkST loc now)] ∧
    (Entry_.mkST loc now).m_level ≠ .NONE :=
  ⟨rfl, rfl, rfl, fun h => nomatch h⟩

end UtilLog
